import Mathlib

/-!
Verification of the eGo DynamoDB durable-state store adapter.

The development shallowly embeds the Go source of the adapter
(`dynamodb.go`, `util.go`): the DynamoDB attribute model, the backend
table as a key-value map with a declared partition-key attribute name,
the `strconv` numeric parsing used by the read path, the protobuf
registry resolution (`toProto`), and the three operations `Connect`,
`WriteState`, `GetLatestState`.  Go run-time panics (failed type
assertions) are embedded as an explicit error branch, and Go method
calls with a value receiver are embedded by running the method body on
a copy of the receiver.
-/

set_option autoImplicit false

namespace EgoDynamo

/-- DynamoDB attribute values as consumed by the adapter: UTF-8 string
(`S`), decimal-string-encoded number (`N`), raw binary blob (`B`).
Mirrors `types.AttributeValueMemberS/N/B` of the AWS SDK. -/
inductive AttributeValue where
  | S (value : String)
  | N (value : String)
  | B (value : List Nat)
  deriving DecidableEq, Repr

/-- A DynamoDB item: a flat mapping from attribute names to typed
attribute values (`map[string]types.AttributeValue`). -/
def Item := List (String × AttributeValue)

instance : DecidableEq Item := by
  unfold Item
  infer_instance

/-- Go map lookup `item[name]`: the attribute value if present, `none`
(Go `nil`) otherwise. -/
def Item.get (item : Item) (name : String) : Option AttributeValue :=
  (item.find? (fun p => p.1 = name)).map Prod.snd

/-- Errors surfaced by the DynamoDB backend itself.  A request whose
key map does not match the table's declared key schema is rejected by
DynamoDB with a validation exception. -/
inductive DynamoError where
  | validationException
  deriving DecidableEq, Repr

/-- The external DynamoDB table: a declared partition-key attribute
name (the README instructs `PersistenceID (String)` as partition key of
the `states_store` table) and the stored rows, keyed by the value of
that partition-key attribute. -/
structure DynamoTable where
  keyAttribute : String
  rows : String → Option Item

/-- Backend `PutItem`: an upsert keyed solely by the table's
partition-key attribute.  The item must carry that attribute with a
string value; the previous row under the same key is fully replaced. -/
def putItem (tbl : DynamoTable) (item : Item) : Except DynamoError DynamoTable :=
  match Item.get item tbl.keyAttribute with
  | some (.S k) =>
      .ok { tbl with rows := fun x => if x = k then some item else tbl.rows x }
  | _ => .error .validationException

/-- Backend `GetItem`: a point lookup.  The key map must consist of
exactly the table's partition-key attribute with a string value;
otherwise DynamoDB rejects the request.  On success it returns the row
if present and `none` ("not found") otherwise. -/
def getItem (tbl : DynamoTable) (key : Item) : Except DynamoError (Option Item) :=
  match key with
  | [(name, .S v)] =>
      if name = tbl.keyAttribute then .ok (tbl.rows v) else .error .validationException
  | _ => .error .validationException

/-- Outcome classification of Go `strconv.ParseUint`/`ParseInt`:
either a malformed-input failure or an out-of-range failure. -/
inductive NumError where
  | malformedErr
  | rangeErr
  deriving DecidableEq, Repr

/-- The decimal value of a digit sequence, accumulated left to
right as `strconv` does. -/
def digitsVal (cs : List Char) : Nat :=
  cs.foldl (fun acc c => acc * 10 + (c.toNat - 48)) 0

/-- Base-10 digit reading underlying `strconv.ParseUint`: a nonempty
all-digit sequence denotes its decimal value, anything else is
malformed. -/
def decDigitsOfChars? (cs : List Char) : Option Nat :=
  match cs with
  | [] => none
  | _ => if cs.all Char.isDigit then some (digitsVal cs) else none

/-- Base-10 digit reading of a string's characters. -/
def decDigits? (s : String) : Option Nat :=
  decDigitsOfChars? s.data

/-- Go `strconv.ParseUint(s, 10, 64)`: returns the parsed value and an
optional error.  On a malformed string it returns `0` with a failure
classified as malformed; on an in-range digit string it returns the
value; on an out-of-range digit string it returns the maximum unsigned
64-bit value with a failure classified as out of range. -/
def goParseUint64 (s : String) : Nat × Option NumError :=
  match decDigits? s with
  | none => (0, some .malformedErr)
  | some n => if n < 2 ^ 64 then (n, none) else (2 ^ 64 - 1, some .rangeErr)

/-- Go `strconv.ParseInt(s, 10, 64)`: an optional leading sign followed
by digits.  On a malformed string it returns `0` with a malformed
failure; out-of-range values are clamped to the signed 64-bit boundary
of the appropriate sign with an out-of-range failure. -/
def goParseInt64 (s : String) : Int × Option NumError :=
  match s.data with
  | [] => (0, some .malformedErr)
  | c :: cs =>
      match decDigitsOfChars? (if c = '-' ∨ c = '+' then cs else c :: cs) with
      | none => (0, some .malformedErr)
      | some n =>
          if c = '-' then
            if n ≤ 2 ^ 63 then (-(n : Int), none)
            else (-(2 ^ 63 : Int), some .rangeErr)
          else
            if n < 2 ^ 63 then ((n : Int), none)
            else (((2 ^ 63 - 1 : Nat) : Int), some .rangeErr)

/-- `parseDynamoUint64` from the source: asserts the attribute is
number-typed (`*types.AttributeValueMemberN`) and parses its decimal
string, discarding the parse error.  A failed type assertion is a Go
panic, embedded as `none`. -/
def parseDynamoUint64 : AttributeValue → Option Nat
  | .N v => some (goParseUint64 v).1
  | _ => none

/-- `parseDynamoInt64` from the source: the signed variant of
`parseDynamoUint64`, with the same panic on a non-number-typed
attribute. -/
def parseDynamoInt64 : AttributeValue → Option Int
  | .N v => some (goParseInt64 v).1
  | _ => none

/-- Abstract model of a protobuf message value: its concrete type's
fully qualified name, whether `proto.Marshal` succeeds on it, and the
wire bytes it serializes to. -/
structure ProtoMsg where
  typeName : String
  marshalOk : Bool
  wire : List Nat
  deriving DecidableEq, Repr

/-- Go `proto.Marshal`: the wire bytes and whether the returned error
was nil.  On failure it returns nil (empty) bytes alongside the
error. -/
def protoMarshal (m : ProtoMsg) : List Nat × Bool :=
  if m.marshalOk then (m.wire, true) else ([], false)

/-- A registered message type in the process-wide protobuf type
registry: whether instantiating it yields the `*anypb.Any` envelope
type, and its binary decoding contract (`proto.Unmarshal` into a fresh
value; `none` models a decode error). -/
structure MessageType where
  isAnyType : Bool
  unmarshal : List Nat → Option ProtoMsg

/-- The process-wide type registry (`protoregistry.GlobalTypes`),
as a lookup from fully qualified type names. -/
def Registry := String → Option MessageType

/-- The three failure kinds of the payload resolver `toProto`. -/
inductive ProtoError where
  | typeNotFound (name : String)
  | decodeFailure
  | typeMismatch (name : String)
  deriving DecidableEq, Repr

/-- `toProto` from the source: resolves the manifest in the global
registry, deserializes the bytes into a fresh value of the resolved
type, and casts the result to the `*anypb.Any` envelope type. -/
def toProto (registry : Registry) (manifest : String) (bytea : List Nat) :
    Except ProtoError ProtoMsg :=
  match registry manifest with
  | none => .error (.typeNotFound manifest)
  | some mt =>
      match mt.unmarshal bytea with
      | none => .error .decodeFailure
      | some pm =>
          if mt.isAnyType then .ok pm else .error (.typeMismatch manifest)

/-- `egopb.DurableState`: the structured state record exchanged with
the calling actor runtime. -/
structure DurableState where
  persistenceId : String
  versionNumber : Nat
  resultingState : ProtoMsg
  timestamp : Int
  shard : Nat
  deriving DecidableEq, Repr

/-- The six-entry attribute mapping built by `WriteState`: partition
key `PersistenceID` plus five data attributes.  `VersionNumber` is
written as a number-typed attribute while `Timestamp` and
`ShardNumber` are written as string-typed attributes. -/
def writeItem (state : DurableState) : Item :=
  [("PersistenceID", .S state.persistenceId),
   ("VersionNumber", .N (toString state.versionNumber)),
   ("StatePayload", .B (protoMarshal state.resultingState).1),
   ("StateManifest", .S state.resultingState.typeName),
   ("Timestamp", .S (toString state.timestamp)),
   ("ShardNumber", .S (toString state.shard))]

/-- `WriteState` from the source: marshal the resulting state (the
marshal error is discarded), build the attribute mapping, and upsert
it into the backend table. -/
def WriteState (tbl : DynamoTable) (state : DurableState) :
    Except DynamoError DynamoTable :=
  putItem tbl (writeItem state)

/-- Failure kinds of `GetLatestState`: a wrapped backend error, a Go
run-time panic from a failed type assertion on a fetched attribute, or
a wrapped payload-resolver error. -/
inductive GetError where
  | backendError (e : DynamoError)
  | panicAssert
  | unmarshalError (e : ProtoError)
  deriving DecidableEq, Repr

/-- The key map `GetLatestState` queries the backend with: the single
attribute name `PK` carrying the persistence id. -/
def getLatestStateKey (persistenceID : String) : Item :=
  [("PK", .S persistenceID)]

/-- The type assertion `.(*types.AttributeValueMemberB)`: the binary
payload, panicking (`none`) on any other attribute type. -/
def asBinary : AttributeValue → Option (List Nat)
  | .B b => some b
  | _ => none

/-- The type assertion `.(*types.AttributeValueMemberS)`: the string
value, panicking (`none`) on any other attribute type. -/
def asString : AttributeValue → Option String
  | .S s => some s
  | _ => none

/-- `GetLatestState` from the source: point lookup by the `PK` key
map, explicit absent result when no row is found, extraction of the
five data attributes (with unchecked type assertions), and payload
resolution through `toProto`. -/
def GetLatestState (registry : Registry) (tbl : DynamoTable)
    (persistenceID : String) : Except GetError (Option DurableState) :=
  match getItem tbl (getLatestStateKey persistenceID) with
  | .error e => .error (.backendError e)
  | .ok none => .ok none
  | .ok (some respItem) =>
      match (Item.get respItem "VersionNumber").bind parseDynamoUint64,
            (Item.get respItem "StatePayload").bind asBinary,
            (Item.get respItem "StateManifest").bind asString,
            (Item.get respItem "Timestamp").bind parseDynamoInt64,
            (Item.get respItem "ShardNumber").bind parseDynamoUint64 with
      | some vn, some payload, some manifest, some ts, some shard =>
          match toProto registry manifest payload with
          | .error e => .error (.unmarshalError e)
          | .ok st =>
              .ok (some { persistenceId := persistenceID, versionNumber := vn,
                          resultingState := st, timestamp := ts, shard := shard })
      | _, _, _, _, _ => .error .panicAssert

/-- The backend client handle (`*dynamodb.Client`), abstracted to the
region its configuration was loaded for. -/
structure DynamoClient where
  region : String
  deriving DecidableEq, Repr

/-- `DynamoDurableStore`: the adapter value, holding an optional
backend client (Go zero value: `nil`). -/
structure DynamoDurableStore where
  client : Option DynamoClient
  deriving DecidableEq, Repr

/-- The AWS configuration loaded by `config.LoadDefaultConfig`. -/
structure AWSConfig where
  region : String
  deriving DecidableEq, Repr

/-- `dynamodb.NewFromConfig`: a fresh client for the configuration. -/
def newFromConfig (cfg : AWSConfig) : DynamoClient :=
  { region := cfg.region }

/-- The body of `Connect`, executed on the receiver it is handed: load
the AWS configuration (its outcome is the environment-dependent input
`cfg`), and on success assign a fresh client to the receiver's
`client` field. -/
def connectBody (d : DynamoDurableStore) (cfg : Except String AWSConfig) :
    DynamoDurableStore × Except String Unit :=
  match cfg with
  | .error e => (d, .error ("unable to load SDK config, " ++ e))
  | .ok c => ({ d with client := some (newFromConfig c) }, .ok ())

/-- `Connect` as called on a store: the method has a value receiver,
so Go runs `connectBody` on a copy of the store and discards the copy;
the call returns the method's result together with the store observed
by subsequent operations. -/
def Connect (d : DynamoDurableStore) (cfg : Except String AWSConfig) :
    Except String Unit × DynamoDurableStore :=
  ((connectBody d cfg).2, d)

/-! ## Claim theorems -/

/-- C2: the attribute name the read path queries by (`PK`) is not
among the attribute names written by the write path, whose
partition-key attribute is named `PersistenceID`: for every input
record and every actor id, the read key's single attribute name is
absent from the write schema. -/
theorem readKey_absent_from_write_schema (state : DurableState) (persistenceID : String) :
    (getLatestStateKey persistenceID).map Prod.fst = ["PK"] ∧
    "PK" ∉ (writeItem state).map Prod.fst := by
  refine ⟨rfl, ?_⟩
  show "PK" ∉ ["PersistenceID", "VersionNumber", "StatePayload",
               "StateManifest", "Timestamp", "ShardNumber"]
  decide

/-- C3: `WriteState` stores `Timestamp` and `ShardNumber` as
string-typed attribute values, while the read path's decoders
`parseDynamoInt64` and `parseDynamoUint64` succeed exactly on
number-typed attribute values (panicking on all others), so the
write-side and read-side types for these two fields are
inconsistent. -/
theorem timestamp_shard_type_mismatch (state : DurableState) :
    Item.get (writeItem state) "Timestamp" = some (.S (toString state.timestamp)) ∧
    Item.get (writeItem state) "ShardNumber" = some (.S (toString state.shard)) ∧
    (∀ v : AttributeValue, (parseDynamoInt64 v).isSome ↔ ∃ s, v = .N s) ∧
    (∀ v : AttributeValue, (parseDynamoUint64 v).isSome ↔ ∃ s, v = .N s) := by
  refine ⟨rfl, rfl, ?_, ?_⟩ <;>
    intro v <;> cases v <;> simp [parseDynamoInt64, parseDynamoUint64]

/-- C6: when the backend point lookup succeeds but finds no record,
`GetLatestState` returns an explicit absent result (`ok none`), not an
error. -/
theorem getLatestState_absent_not_error (registry : Registry) (tbl : DynamoTable)
    (persistenceID : String)
    (h : getItem tbl (getLatestStateKey persistenceID) = .ok none) :
    GetLatestState registry tbl persistenceID = .ok none := by
  unfold GetLatestState
  rw [h]

/-- An empty backend table whose partition-key attribute is named
`PK`, so that the read path's lookup is accepted by the backend. -/
def emptyPKTable : DynamoTable :=
  { keyAttribute := "PK", rows := fun _ => none }

/-- A registry with no message types registered. -/
def emptyRegistry : Registry := fun _ => none

/-- Witness for C6 at a concrete actor id and table. -/
theorem getLatestState_absent_not_error_witness :
    GetLatestState emptyRegistry emptyPKTable "actor-99" = .ok none :=
  getLatestState_absent_not_error emptyRegistry emptyPKTable "actor-99" rfl

/-- C4: `Connect` has a value receiver, so the freshly configured
client is assigned to a copy of the store: after every successful
call, the store observed by subsequent operations equals the store
from before the call, even though the method body did set the client
field on its copy. -/
theorem connect_leaves_store_unchanged (d : DynamoDurableStore)
    (cfg : Except String AWSConfig) (h : (Connect d cfg).1 = Except.ok ()) :
    (Connect d cfg).2 = d ∧
    ∃ c, cfg = .ok c ∧ (connectBody d cfg).1.client = some (newFromConfig c) := by
  refine ⟨rfl, ?_⟩
  cases cfg with
  | error e => simp [Connect, connectBody] at h
  | ok c => exact ⟨c, rfl, rfl⟩

/-- A store with no client configured (the Go zero value). -/
def zeroStore : DynamoDurableStore := { client := none }

/-- A successfully loaded AWS configuration. -/
def okConfig : Except String AWSConfig := .ok { region := "us-west-2" }

/-- Witness for C4 at a concrete store and configuration. -/
theorem connect_leaves_store_unchanged_witness :
    (Connect zeroStore okConfig).2 = zeroStore ∧
    ∃ c, okConfig = .ok c ∧
      (connectBody zeroStore okConfig).1.client = some (newFromConfig c) :=
  connect_leaves_store_unchanged zeroStore okConfig rfl

/-- C5: the payload resolver fails with a type-not-found error when
the manifest is not registered, with a distinct decode-failure error
when the bytes do not deserialize as the resolved type, with a
type-mismatch error when the deserialized value's concrete type is not
the `Any` envelope, and otherwise returns the decoded envelope value;
no other outcome exists. -/
theorem toProto_error_cases (registry : Registry) (manifest : String) (bytea : List Nat) :
    (registry manifest = none →
      toProto registry manifest bytea = .error (.typeNotFound manifest)) ∧
    (∀ mt, registry manifest = some mt → mt.unmarshal bytea = none →
      toProto registry manifest bytea = .error .decodeFailure) ∧
    (∀ mt pm, registry manifest = some mt → mt.unmarshal bytea = some pm →
      mt.isAnyType = false →
      toProto registry manifest bytea = .error (.typeMismatch manifest)) ∧
    (∀ mt pm, registry manifest = some mt → mt.unmarshal bytea = some pm →
      mt.isAnyType = true →
      toProto registry manifest bytea = .ok pm) := by
  refine ⟨?_, ?_, ?_, ?_⟩ <;> intros <;> simp_all [toProto]

/-- A decoded `Any` envelope value used by concrete scenarios. -/
def anyMsg0 : ProtoMsg :=
  { typeName := "google.protobuf.Any", marshalOk := true, wire := [10, 0] }

/-- A registered type whose binary decoding always fails. -/
def failDecodeType : MessageType := { isAnyType := true, unmarshal := fun _ => none }

/-- A registered type that decodes but is not the `Any` envelope. -/
def notAnyType : MessageType := { isAnyType := false, unmarshal := fun _ => some anyMsg0 }

/-- A registered `Any` envelope type that decodes successfully. -/
def anyType0 : MessageType := { isAnyType := true, unmarshal := fun _ => some anyMsg0 }

/-- Witness for C5: each of the four outcomes at concrete inputs. -/
theorem toProto_error_cases_witness :
    toProto emptyRegistry "pkg.T" [] = .error (.typeNotFound "pkg.T") ∧
    toProto (fun _ => some failDecodeType) "pkg.T" [] = .error .decodeFailure ∧
    toProto (fun _ => some notAnyType) "pkg.T" [] = .error (.typeMismatch "pkg.T") ∧
    toProto (fun _ => some anyType0) "pkg.T" [] = .ok anyMsg0 :=
  ⟨(toProto_error_cases emptyRegistry "pkg.T" []).1 rfl,
   (toProto_error_cases (fun _ => some failDecodeType) "pkg.T" []).2.1
     failDecodeType rfl rfl,
   (toProto_error_cases (fun _ => some notAnyType) "pkg.T" []).2.2.1
     notAnyType anyMsg0 rfl rfl rfl,
   (toProto_error_cases (fun _ => some anyType0) "pkg.T" []).2.2.2
     anyType0 anyMsg0 rfl rfl rfl⟩

/-- Backend upsert idempotence: re-putting an item into the table it
just produced leaves the table unchanged. -/
theorem putItem_overwrite_idem (tbl tbl' : DynamoTable) (item : Item)
    (h : putItem tbl item = .ok tbl') : putItem tbl' item = .ok tbl' := by
  unfold putItem at h ⊢
  cases hg : Item.get item tbl.keyAttribute with
  | none => rw [hg] at h; simp at h
  | some v =>
      cases v with
      | S k =>
          rw [hg] at h
          simp only [Except.ok.injEq] at h
          subst h
          rw [show ({ tbl with
                rows := fun x => if x = k then some item else tbl.rows x } :
              DynamoTable).keyAttribute = tbl.keyAttribute from rfl, hg]
          simp only [Except.ok.injEq]
          congr 1
          funext x
          by_cases hx : x = k <;> simp [hx]
      | N s => rw [hg] at h; simp at h
      | B b => rw [hg] at h; simp at h

/-- C9: the upsert performed by `WriteState` is idempotent — writing
the same record into the table state produced by writing it once
yields that same table state. -/
theorem writeState_idempotent (tbl : DynamoTable) (state : DurableState)
    (tbl' : DynamoTable) (h : WriteState tbl state = .ok tbl') :
    WriteState tbl' state = .ok tbl' :=
  putItem_overwrite_idem tbl tbl' (writeItem state) h

/-- A concrete state record used in round-trip scenarios. -/
def state0 : DurableState :=
  { persistenceId := "actor-1", versionNumber := 1, resultingState := anyMsg0,
    timestamp := 1000, shard := 3 }

/-- The empty `states_store` table, keyed by `PersistenceID` as the
README instructs. -/
def statesTable0 : DynamoTable :=
  { keyAttribute := "PersistenceID", rows := fun _ => none }

/-- The `states_store` table after writing `state0` once. -/
def statesTable1 : DynamoTable :=
  { keyAttribute := "PersistenceID",
    rows := fun x => if x = "actor-1" then some (writeItem state0) else none }

/-- Witness for C9: re-writing `state0` into the table obtained by
writing it once returns that table unchanged. -/
theorem writeState_idempotent_witness :
    WriteState statesTable1 state0 = .ok statesTable1 :=
  writeState_idempotent statesTable0 state0 statesTable1 rfl

/-- C10: `WriteState` discards the payload-serialization error — when
marshaling the resulting state fails, the write still proceeds and
upserts the item with the empty byte blob as `StatePayload` instead of
surfacing a failure. -/
theorem writeState_ignores_marshal_error (rows : String → Option Item)
    (state : DurableState) (h : (protoMarshal state.resultingState).2 = false) :
    Item.get (writeItem state) "StatePayload" = some (.B []) ∧
    WriteState { keyAttribute := "PersistenceID", rows := rows } state =
      .ok { keyAttribute := "PersistenceID",
            rows := fun x =>
              if x = state.persistenceId then some (writeItem state) else rows x } := by
  have hm : state.resultingState.marshalOk = false := by
    unfold protoMarshal at h
    split at h
    · simp at h
    · simp_all
  refine ⟨?_, ?_⟩
  · simp +decide [writeItem, Item.get, protoMarshal, hm]
  · rfl

/-- A payload value whose serialization fails. -/
def badMarshalMsg : ProtoMsg :=
  { typeName := "pkg.Bad", marshalOk := false, wire := [1, 2, 3] }

/-- A state record whose payload fails to marshal. -/
def badMarshalState : DurableState :=
  { persistenceId := "actor-7", versionNumber := 2, resultingState := badMarshalMsg,
    timestamp := 99, shard := 0 }

/-- Witness for C10: the failing-marshal record is still upserted,
with an empty payload blob. -/
theorem writeState_ignores_marshal_error_witness :
    Item.get (writeItem badMarshalState) "StatePayload" = some (.B []) ∧
    WriteState { keyAttribute := "PersistenceID", rows := fun _ => none }
        badMarshalState =
      .ok { keyAttribute := "PersistenceID",
            rows := fun x =>
              if x = "actor-7" then some (writeItem badMarshalState) else none } :=
  writeState_ignores_marshal_error (fun _ => none) badMarshalState rfl

/-- A backend table keyed by `PK` and holding the item `WriteState`
builds for `state0`, so the read path's lookup finds the record. -/
def pkTableWithState0 : DynamoTable :=
  { keyAttribute := "PK",
    rows := fun x => if x = "actor-1" then some (writeItem state0) else none }

/-- C8: on a found record carrying a string-typed `Timestamp`
attribute (exactly what `WriteState` produces), the unchecked type
assertions of the read path fail, so `GetLatestState` hits the
embedded panic branch instead of returning an error value. -/
theorem getLatestState_panics_on_mistyped_attribute :
    getItem pkTableWithState0 (getLatestStateKey "actor-1") =
      .ok (some (writeItem state0)) ∧
    Item.get (writeItem state0) "Timestamp" = some (.S "1000") ∧
    GetLatestState emptyRegistry pkTableWithState0 "actor-1" =
      .error .panicAssert :=
  ⟨rfl, rfl, rfl⟩

/-- Value/error characterization of the unsigned parse: a malformed
input yields `0`, an out-of-range input yields the clamped maximum. -/
theorem goParseUint64_err_val (s : String) :
    ((goParseUint64 s).2 = some NumError.malformedErr → (goParseUint64 s).1 = 0) ∧
    ((goParseUint64 s).2 = some NumError.rangeErr →
      (goParseUint64 s).1 = 2 ^ 64 - 1) := by
  unfold goParseUint64
  cases decDigits? s with
  | none =>
      exact ⟨fun _ => rfl, fun h => NumError.noConfusion (Option.some.inj h)⟩
  | some n =>
      dsimp only
      by_cases hn : n < 2 ^ 64
      · rw [if_pos hn]
        exact ⟨fun h => Option.noConfusion h, fun h => Option.noConfusion h⟩
      · rw [if_neg hn]
        exact ⟨fun h => NumError.noConfusion (Option.some.inj h), fun _ => rfl⟩

/-- Value/error characterization of the signed parse: a malformed
input yields `0`, an out-of-range input yields the signed boundary of
the appropriate sign. -/
theorem goParseInt64_err_val (s : String) :
    ((goParseInt64 s).2 = some NumError.malformedErr → (goParseInt64 s).1 = 0) ∧
    ((goParseInt64 s).2 = some NumError.rangeErr →
      (goParseInt64 s).1 = ((2 ^ 63 - 1 : Nat) : Int) ∨
      (goParseInt64 s).1 = -(2 ^ 63 : Int)) := by
  unfold goParseInt64
  cases s.data with
  | nil =>
      exact ⟨fun _ => rfl, fun h => NumError.noConfusion (Option.some.inj h)⟩
  | cons c cs =>
      dsimp only
      cases decDigitsOfChars? (if c = '-' ∨ c = '+' then cs else c :: cs) with
      | none =>
          exact ⟨fun _ => rfl, fun h => NumError.noConfusion (Option.some.inj h)⟩
      | some n =>
          dsimp only
          by_cases hneg : c = '-'
          · rw [if_pos hneg]
            by_cases hb : n ≤ 2 ^ 63
            · rw [if_pos hb]
              exact ⟨fun h => Option.noConfusion h, fun h => Option.noConfusion h⟩
            · rw [if_neg hb]
              exact ⟨fun h => NumError.noConfusion (Option.some.inj h),
                     fun _ => Or.inr rfl⟩
          · rw [if_neg hneg]
            by_cases hb : n < 2 ^ 63
            · rw [if_pos hb]
              exact ⟨fun h => Option.noConfusion h, fun h => Option.noConfusion h⟩
            · rw [if_neg hb]
              exact ⟨fun h => NumError.noConfusion (Option.some.inj h),
                     fun _ => Or.inl rfl⟩

/-- C7 counterexample: the out-of-range digit string `2^64` fails to
parse, yet `parseDynamoUint64` substitutes the clamped maximum
`2^64 - 1`, not zero. -/
theorem parse_failure_not_always_zero :
    Option.isSome (goParseUint64 "18446744073709551616").2 = true ∧
    parseDynamoUint64 (.N "18446744073709551616") = some 18446744073709551615 ∧
    parseDynamoUint64 (.N "18446744073709551616") ≠ some 0 := by
  decide

/-- C7 amended: number-typed attributes whose decimal string fails to
parse yield a silently substituted default instead of an error —
zero for malformed (syntactically invalid) text, and the clamped
64-bit boundary of the appropriate sign for out-of-range text. -/
theorem parse_failure_silent_defaults (s : String) :
    ((goParseUint64 s).2 = some NumError.malformedErr →
      parseDynamoUint64 (.N s) = some 0) ∧
    ((goParseUint64 s).2 = some NumError.rangeErr →
      parseDynamoUint64 (.N s) = some (2 ^ 64 - 1)) ∧
    ((goParseInt64 s).2 = some NumError.malformedErr →
      parseDynamoInt64 (.N s) = some 0) ∧
    ((goParseInt64 s).2 = some NumError.rangeErr →
      parseDynamoInt64 (.N s) = some ((2 ^ 63 - 1 : Nat) : Int) ∨
      parseDynamoInt64 (.N s) = some (-(2 ^ 63 : Int))) := by
  refine ⟨fun h => ?_, fun h => ?_, fun h => ?_, fun h => ?_⟩
  · exact congrArg some ((goParseUint64_err_val s).1 h)
  · exact congrArg some ((goParseUint64_err_val s).2 h)
  · exact congrArg some ((goParseInt64_err_val s).1 h)
  · rcases (goParseInt64_err_val s).2 h with hv | hv
    · exact Or.inl (congrArg some hv)
    · exact Or.inr (congrArg some hv)

/-- Witness for the amended C7: each default at a concrete input —
malformed text parses to `0`, out-of-range text to the clamped
boundary, for both parsers. -/
theorem parse_failure_silent_defaults_witness :
    parseDynamoUint64 (.N "not-a-number") = some 0 ∧
    parseDynamoUint64 (.N "18446744073709551617") = some (2 ^ 64 - 1) ∧
    parseDynamoInt64 (.N "12x") = some 0 ∧
    (parseDynamoInt64 (.N "-9223372036854775809") = some ((2 ^ 63 - 1 : Nat) : Int) ∨
      parseDynamoInt64 (.N "-9223372036854775809") = some (-(2 ^ 63 : Int))) :=
  ⟨(parse_failure_silent_defaults "not-a-number").1 (by decide),
   (parse_failure_silent_defaults "18446744073709551617").2.1 (by decide),
   (parse_failure_silent_defaults "12x").2.2.1 (by decide),
   (parse_failure_silent_defaults "-9223372036854775809").2.2.2 (by decide)⟩

/-- A registry with the `Any` envelope type registered, so that a
round-trip read could in principle resolve the stored manifest. -/
def anyRegistry : Registry :=
  fun name => if name = "google.protobuf.Any" then some anyType0 else none

/-- C1 evaluated at a concrete record: the write succeeds against the
`states_store` table keyed by `PersistenceID`, yet the subsequent read
of the same actor id fails with a backend validation error, because
the read queries by the undeclared key attribute `PK` — the claimed
round-trip never yields the written record. -/
theorem roundTrip_fails_at_concrete_record :
    WriteState statesTable0 state0 = .ok statesTable1 ∧
    GetLatestState anyRegistry statesTable1 "actor-1" =
      .error (.backendError .validationException) :=
  ⟨rfl, rfl⟩

end EgoDynamo
